import Mathlib

/-!
Shallow embedding of `src/server.js`, the lifecycle orchestrator of the
Express service: startup sequencing (`startServer`), graceful shutdown
(`gracefulShutdown`), and the signal / fault interceptors.

Machine effects (`process.exit`, `serverInstance.close`,
`sequelize.close`, `app.listen`, handler registration, the `listening`
callback) are recorded as explicit actions in a trace.  Log emission
through the structured sink (winston logger) and through the `console`
fallback are recorded as separate string lists; an optional-chained call
`logger?.info(m)` emits `m` exactly when the logger value in scope is
non-null, which `logIf` models.

The JavaScript orchestrator is single-threaded: every `await`ed step of
`startServer` completes before the next begins, so the sequential order
of the recorded trace is exactly the execution order of the source.  For
the one claim about two termination signals interleaving with a
suspended shutdown run, a small event-loop model (`runEvents`) replays
the source at the granularity of its `await` points.
-/

/-- A JavaScript `Error` value as `server.js` consumes it: `message`,
`stack`, and the `code` property (modelled as `""` when absent). -/
structure JsError where
  message : String
  stack : String
  code : String
  deriving DecidableEq, Repr

/-- `process.env.PORT || 3000`: the port, at its default. -/
def PORT : Nat := 3000

/-- An optional-chained log call `lg?.info(m)` / `lg?.error(m)`: emits
`m` exactly when `lg` is non-null. -/
def logIf (lg : Option Unit) (m : String) : List String :=
  match lg with
  | some _ => [m]
  | none => []

/-- The HTTP server handle: `closeErr` is the outcome its
`close(callback)` will settle with (`some e` means the callback receives
the error `e`). -/
structure ServerHandle where
  closeErr : Option JsError
  deriving DecidableEq, Repr

/-- The Sequelize handle returned by `getSequelize()`: `closeErr` is the
outcome of awaiting `sequelize.close()`. -/
structure DbHandle where
  closeErr : Option JsError
  deriving DecidableEq, Repr

/-- The values `gracefulShutdown` reads: the module-level `logger`
(`some ()` when assigned, `none` when still `null`), the module-level
`serverInstance`, and the result of `getSequelize()`. -/
structure ShutdownEnv where
  logger : Option Unit
  serverInstance : Option ServerHandle
  sequelize : Option DbHandle
  deriving DecidableEq, Repr

/-- Machine actions performed by a shutdown run. -/
inductive GsAct where
  | serverCloseCall
  | dbCloseCall
  | exit (code : Nat)
  deriving DecidableEq, Repr

/-- What one call of `gracefulShutdown` produced: the messages emitted
through the structured sink, and the ordered action trace. -/
structure GsResult where
  logs : List String
  acts : List GsAct
  deriving DecidableEq, Repr

def shutdownDoneMsg : String := "[服务关闭] 所有资源释放完成，进程退出"

def shutdownFailMsg (e : JsError) : String := "[优雅关闭失败] " ++ e.message

/-- Continuation of `gracefulShutdown` after the HTTP-server step: the
`getSequelize()` check, the awaited `sequelize.close()`, the completion
log and `process.exit(0)`; a rejection is caught by the single `catch`
of `gracefulShutdown`, which logs `[优雅关闭失败]` and exits 1. -/
def gsAfterServer (env : ShutdownEnv) (logs : List String) (acts : List GsAct) : GsResult :=
  match env.sequelize with
  | none =>
      ⟨logs ++ logIf env.logger shutdownDoneMsg, acts ++ [.exit 0]⟩
  | some db =>
      match db.closeErr with
      | some e =>
          ⟨logs ++ logIf env.logger (shutdownFailMsg e), acts ++ [.dbCloseCall, .exit 1]⟩
      | none =>
          ⟨logs ++ logIf env.logger "[数据库] 连接已关闭" ++ logIf env.logger shutdownDoneMsg,
           acts ++ [.dbCloseCall, .exit 0]⟩

/-- `gracefulShutdown(signal)` from `src/server.js`: log receipt of the
signal through the (module-level) optional-chained logger; inside one
`try`, close `serverInstance` if present (a close error rejects and is
caught), then close the Sequelize handle if present, log completion and
`process.exit(0)`; the single `catch` logs the failure and
`process.exit(1)`. -/
def gracefulShutdown (env : ShutdownEnv) (signal : String) : GsResult :=
  let logs := logIf env.logger ("[进程退出] 接收到 " ++ signal ++ " 信号，开始优雅关闭服务...")
  match env.serverInstance with
  | none => gsAfterServer env logs []
  | some srv =>
      match srv.closeErr with
      | some e =>
          ⟨logs ++ logIf env.logger (shutdownFailMsg e), [.serverCloseCall, .exit 1]⟩
      | none =>
          gsAfterServer env (logs ++ logIf env.logger "[HTTP服务器] 已关闭，停止接收新请求")
            [.serverCloseCall]

/-- `true` when the HTTP-server close step cannot reject (no handle, or
its close settles cleanly). -/
def srvOk (env : ShutdownEnv) : Bool :=
  match env.serverInstance with
  | some h => h.closeErr.isNone
  | none => true

/-- `true` when the persistence close step cannot reject. -/
def dbOk (env : ShutdownEnv) : Bool :=
  match env.sequelize with
  | some h => h.closeErr.isNone
  | none => true

/-- How the `app.listen` call settles: the `listening` callback fires
(`ready`), or an out-of-band `error` event is delivered on the handle. -/
inductive ListenOutcome where
  | ready
  | errorEvent (e : JsError)
  deriving DecidableEq, Repr

/-- Outcomes of the awaited initializers consumed by `startServer`
(`initLogger`, `initDB`, `initMailTransporter`), plus how the listener
bind settles. -/
structure StartEnv where
  initLoggerErr : Option JsError
  initDBErr : Option JsError
  initMailErr : Option JsError
  listenOutcome : ListenOutcome
  deriving DecidableEq, Repr

/-- The two module-level variables of `src/server.js`:
`let serverInstance = null` and `let logger = null`. -/
structure ModuleState where
  serverInstance : Option Unit
  logger : Option Unit
  deriving DecidableEq, Repr

/-- Module state at process creation: both variables `null`. -/
def initialModuleState : ModuleState := ⟨none, none⟩

/-- Machine actions performed by a `startServer` run.  `dbCloseCall`
would record a `sequelize.close()` issued during startup-failure
handling; the source contains no such call, so no branch of
`startServer` emits it. -/
inductive StartAct where
  | initLoggerCall
  | initDBCall
  | initMailCall
  | listenCall
  | signalHandlersInstalled
  | listeningCallback
  | dbCloseCall
  | exit (code : Nat)
  deriving DecidableEq, Repr

/-- What one call of `startServer` produced: the action trace, the
messages emitted through the structured sink, the messages emitted
through the `console` fallback, the resulting module state, and the
logger value captured by the registered fault interceptors (`none` when
they were never registered; they close over the shadowing local
`const logger`, not over the module variable). -/
structure StartResult where
  acts : List StartAct
  loggerLogs : List String
  consoleLogs : List String
  state : ModuleState
  faultLogger : Option (Option Unit)
  deriving DecidableEq, Repr

def startFailMsg (e : JsError) : String := "[服务启动失败] " ++ e.message

/-- The `catch` block of `startServer`: it reads the MODULE-level
`logger` (the initialized logger was bound to a shadowing local inside
the `try`), so it logs through the sink only if the module variable was
assigned, else through `console.error`; then `process.exit(1)`. -/
def catchStartup (s : ModuleState) (acts : List StartAct) (llogs : List String)
    (e : JsError) : StartResult :=
  match s.logger with
  | some _ => ⟨acts ++ [.exit 1], llogs ++ [startFailMsg e], [], s, none⟩
  | none => ⟨acts ++ [.exit 1], llogs, [startFailMsg e], s, none⟩

/-- `startServer()` from `src/server.js`: awaits `initLogger()` and
binds the result to a shadowing local `const logger`; awaits `initDB()`;
awaits `initMailTransporter()`; calls `app.listen(PORT, cb)` assigning
the module `serverInstance`; registers the `error` handler, the three
signal handlers and the fault interceptors synchronously; then either
the `listening` callback fires (success logs) or the out-of-band
`error` event fires, whose handler logs through the LOCAL logger — with
an extra diagnostic when `error.code === "EADDRINUSE"` — and calls
`process.exit(1)`.  Any rejected initializer is handled by
`catchStartup`.  Nothing reads `s.serverInstance` and nothing assigns
`s.logger`. -/
def startServer (env : StartEnv) (s : ModuleState) : StartResult :=
  match env.initLoggerErr with
  | some e => catchStartup s [.initLoggerCall] [] e
  | none =>
    let l1 := ["[服务启动] 初始化数据库连接..."]
    match env.initDBErr with
    | some e => catchStartup s [.initLoggerCall, .initDBCall] l1 e
    | none =>
      let l2 := l1 ++ ["[服务启动] 数据库初始化成功"]
      match env.initMailErr with
      | some e => catchStartup s [.initLoggerCall, .initDBCall, .initMailCall] l2 e
      | none =>
        let l3 := l2 ++ ["[服务启动] 启动HTTP服务器，监听端口 " ++ toString PORT ++ "..."]
        let s2 : ModuleState := { s with serverInstance := some () }
        let acts := [StartAct.initLoggerCall, .initDBCall, .initMailCall, .listenCall,
          .signalHandlersInstalled]
        match env.listenOutcome with
        | .ready =>
            ⟨acts ++ [.listeningCallback],
             l3 ++ ["服务器启动成功 🚀，访问地址：http://localhost:" ++ toString PORT,
               "Swagger文档地址：http://localhost:" ++ toString PORT ++ "/api-docs"],
             [], s2, some (some ())⟩
        | .errorEvent e =>
            ⟨acts ++ [.exit 1],
             l3 ++ ["[HTTP服务器启动失败] " ++ e.message] ++
               (if e.code = "EADDRINUSE"
                then ["端口 " ++ toString PORT ++ " 已被占用，请更换端口后重试"]
                else []),
             [], s2, some (some ())⟩

/-- The `uncaughtException` interceptor registered by `startServer`: it
logs `[未捕获异常]` through the logger it closed over (the shadowing
local `const logger`, passed here as `localLogger`), then invokes
`gracefulShutdown` with the fault class as cause. -/
def uncaughtExceptionHandler (localLogger : Option Unit) (env : ShutdownEnv)
    (e : JsError) : GsResult :=
  let pre := logIf localLogger ("[未捕获异常] " ++ e.message)
  let r := gracefulShutdown env "uncaughtException"
  ⟨pre ++ r.logs, r.acts⟩

/-- The `unhandledRejection` interceptor registered by `startServer`,
analogous to `uncaughtExceptionHandler`. -/
def unhandledRejectionHandler (localLogger : Option Unit) (env : ShutdownEnv)
    (reasonMsg : String) : GsResult :=
  let pre := logIf localLogger ("[未处理Promise拒绝] " ++ reasonMsg)
  let r := gracefulShutdown env "unhandledRejection"
  ⟨pre ++ r.logs, r.acts⟩

/-!
Event-loop model for signal interleaving.  A spawned `gracefulShutdown`
run is a coroutine that suspends at its two `await` points; its
suspension point is its program counter.
-/

/-- Suspension points of a `gracefulShutdown` run: awaiting the
HTTP-server close callback, or awaiting `sequelize.close()`. -/
inductive GsPC where
  | awaitServer
  | awaitDb
  deriving DecidableEq, Repr

/-- External events: a termination signal is delivered (its `process.on`
handler calls `gracefulShutdown`, which runs synchronously to its first
`await`), or the promise a suspended run `i` is awaiting settles and the
run resumes. -/
inductive SigEvent where
  | deliver (signal : String)
  | resume (i : Nat)
  deriving DecidableEq, Repr

/-- Event-loop state: the suspension point of each spawned run (`none`
once it finished), the accumulated action trace, the accumulated sink
emissions, and the exit code once some run reached `process.exit`. -/
structure LoopState where
  tasks : List (Option GsPC)
  trace : List GsAct
  logs : List String
  exited : Option Nat
  deriving DecidableEq, Repr

def emptyLoop : LoopState := ⟨[], [], [], none⟩

/-- A signal handler fires: `gracefulShutdown(signal)` runs its entry
synchronously — the receipt log, then `serverInstance.close(...)` if the
handle exists (suspending at `awaitServer`), else `sequelize.close()` if
that handle exists (suspending at `awaitDb`), else straight to the
completion log and `process.exit(0)`. -/
def spawnTask (env : ShutdownEnv) (signal : String) (st : LoopState) : LoopState :=
  let logs := st.logs ++
    logIf env.logger ("[进程退出] 接收到 " ++ signal ++ " 信号，开始优雅关闭服务...")
  match env.serverInstance with
  | some _ =>
      { tasks := st.tasks ++ [some GsPC.awaitServer], trace := st.trace ++ [.serverCloseCall],
        logs := logs, exited := st.exited }
  | none =>
      match env.sequelize with
      | some _ =>
          { tasks := st.tasks ++ [some GsPC.awaitDb], trace := st.trace ++ [.dbCloseCall],
            logs := logs, exited := st.exited }
      | none =>
          { tasks := st.tasks ++ [none], trace := st.trace ++ [.exit 0],
            logs := logs ++ logIf env.logger shutdownDoneMsg, exited := some 0 }

/-- Run `i` resumes after its awaited promise settles, continuing the
source of `gracefulShutdown` from that `await` to the next suspension or
to its end (an error resumption is the promise rejecting, handled by the
single `catch`: log the failure, `process.exit(1)`). -/
def resumeTask (env : ShutdownEnv) (i : Nat) (st : LoopState) : LoopState :=
  match st.tasks.get? i with
  | some (some GsPC.awaitServer) =>
      (match env.serverInstance with
       | some srv =>
           (match srv.closeErr with
            | some e =>
                { tasks := st.tasks.set i none, trace := st.trace ++ [.exit 1],
                  logs := st.logs ++ logIf env.logger (shutdownFailMsg e), exited := some 1 }
            | none =>
                let logs := st.logs ++ logIf env.logger "[HTTP服务器] 已关闭，停止接收新请求"
                (match env.sequelize with
                 | some _ =>
                     { tasks := st.tasks.set i (some GsPC.awaitDb),
                       trace := st.trace ++ [.dbCloseCall], logs := logs, exited := st.exited }
                 | none =>
                     { tasks := st.tasks.set i none, trace := st.trace ++ [.exit 0],
                       logs := logs ++ logIf env.logger shutdownDoneMsg, exited := some 0 }))
       | none => st)
  | some (some GsPC.awaitDb) =>
      (match env.sequelize with
       | some db =>
           (match db.closeErr with
            | some e =>
                { tasks := st.tasks.set i none, trace := st.trace ++ [.exit 1],
                  logs := st.logs ++ logIf env.logger (shutdownFailMsg e), exited := some 1 }
            | none =>
                { tasks := st.tasks.set i none, trace := st.trace ++ [.exit 0],
                  logs := st.logs ++ logIf env.logger "[数据库] 连接已关闭"
                    ++ logIf env.logger shutdownDoneMsg, exited := some 0 })
       | none => st)
  | _ => st

def applyEvent (env : ShutdownEnv) (e : SigEvent) (st : LoopState) : LoopState :=
  match e with
  | .deliver s => spawnTask env s st
  | .resume i => resumeTask env i st

/-- Replay a list of events; once some run has called `process.exit`,
the process is gone and remaining events have no effect. -/
def runEvents (env : ShutdownEnv) (evs : List SigEvent) (st : LoopState) : LoopState :=
  match evs with
  | [] => st
  | e :: rest => if st.exited.isSome then st else runEvents env rest (applyEvent env e st)

/-- The shutdown environment of a successfully started process: module
`logger` still `null` (it is never assigned), a live `serverInstance`
whose close settles cleanly, and a Sequelize handle whose close settles
cleanly. -/
def procEnv : ShutdownEnv := ⟨none, some ⟨none⟩, some ⟨none⟩⟩

/-!
Theorems settling the claims.
-/

/-- C1: `startServer` initializes strictly sequentially in the order
logger → persistence → mail transport → listener bind (the single
thread awaits each step before starting the next, so no two overlap),
and a failure of any of the three initializers is logged (through the
console fallback, the module logger being null) and terminates the
process with exit code 1 without attempting the listener bind. -/
theorem startup_strict_sequence :
    (startServer ⟨none, none, none, ListenOutcome.ready⟩ initialModuleState).acts
        = [StartAct.initLoggerCall, StartAct.initDBCall, StartAct.initMailCall,
           StartAct.listenCall, StartAct.signalHandlersInstalled, StartAct.listeningCallback]
      ∧ (∀ e lo,
          (startServer ⟨some e, none, none, lo⟩ initialModuleState).acts
              = [StartAct.initLoggerCall, StartAct.exit 1]
            ∧ (startServer ⟨some e, none, none, lo⟩ initialModuleState).consoleLogs
              = [startFailMsg e])
      ∧ (∀ e lo,
          (startServer ⟨none, some e, none, lo⟩ initialModuleState).acts
              = [StartAct.initLoggerCall, StartAct.initDBCall, StartAct.exit 1]
            ∧ (startServer ⟨none, some e, none, lo⟩ initialModuleState).consoleLogs
              = [startFailMsg e])
      ∧ (∀ e lo,
          (startServer ⟨none, none, some e, lo⟩ initialModuleState).acts
              = [StartAct.initLoggerCall, StartAct.initDBCall, StartAct.initMailCall,
                 StartAct.exit 1]
            ∧ (startServer ⟨none, none, some e, lo⟩ initialModuleState).consoleLogs
              = [startFailMsg e]) :=
  ⟨rfl, fun _ _ => ⟨rfl, rfl⟩, fun _ _ => ⟨rfl, rfl⟩, fun _ _ => ⟨rfl, rfl⟩⟩

/-- C2 counterexample: in a running process, two termination signals
with the second arriving while the first shutdown run is suspended at
the awaited `serverInstance.close` make the listener release step
execute TWICE — the claim requires the release steps to execute exactly
once, the second trigger being ignored with no additional side
effects. -/
theorem double_signal_double_close :
    (runEvents procEnv [SigEvent.deliver "SIGINT", SigEvent.deliver "SIGTERM"] emptyLoop).trace
      = [GsAct.serverCloseCall, GsAct.serverCloseCall] := rfl

/-- C2 amended: `gracefulShutdown` has no `ShuttingDown` guard.  Any
delivered signal whose handler runs before some run has reached
`process.exit` starts a fresh run of the release steps — in particular
a second signal arriving while the first run is suspended at the awaited
listener close re-invokes `serverInstance.close`.  Only once a run has
called `process.exit` do further events have no effect; an undisturbed
single signal runs the release steps exactly once. -/
theorem signals_no_shutdown_guard :
    (∀ s1 s2 : String,
        (runEvents procEnv [SigEvent.deliver s1, SigEvent.deliver s2] emptyLoop).trace
          = [GsAct.serverCloseCall, GsAct.serverCloseCall])
      ∧ (∀ env evs t tr l n, runEvents env evs ⟨t, tr, l, some n⟩ = ⟨t, tr, l, some n⟩)
      ∧ (runEvents procEnv
            [SigEvent.deliver "SIGINT", SigEvent.resume 0, SigEvent.resume 0] emptyLoop).trace
          = [GsAct.serverCloseCall, GsAct.dbCloseCall, GsAct.exit 0] := by
  refine ⟨fun s1 s2 => rfl, ?_, rfl⟩
  intro env evs t tr l n
  cases evs with
  | nil => rfl
  | cons e rest => simp [runEvents]

/-- C3 counterexample: when the listener close step rejects, the
persistence close step does NOT execute — the single `catch` exits with
code 1 and `sequelize.close()` is never called, though the claim says
teardown continues and the persistence close still executes. -/
theorem listener_close_error_skips_db_close :
    gracefulShutdown ⟨none, some ⟨some ⟨"close failed", "stack0", ""⟩⟩, some ⟨none⟩⟩ "SIGTERM"
      = ⟨[], [GsAct.serverCloseCall, GsAct.exit 1]⟩ := rfl

/-- C3 amended: the whole teardown sits in one `try`/`catch`, so a
listener close error aborts it — the persistence close step is skipped
and the process exits with code 1. -/
theorem listener_close_error_aborts (lg : Option Unit) (e : JsError) (sq : Option DbHandle)
    (sig : String) :
    (gracefulShutdown ⟨lg, some ⟨some e⟩, sq⟩ sig).acts = [GsAct.serverCloseCall, GsAct.exit 1]
      ∧ GsAct.dbCloseCall ∉ (gracefulShutdown ⟨lg, some ⟨some e⟩, sq⟩ sig).acts := by
  refine ⟨rfl, ?_⟩
  intro h
  rw [show (gracefulShutdown ⟨lg, some ⟨some e⟩, sq⟩ sig).acts
      = [GsAct.serverCloseCall, GsAct.exit 1] from rfl] at h
  exact absurd h (by decide)

/-- C4 counterexample: persistence initialization succeeds, then the
listener bind fails asynchronously (`EADDRINUSE`) — the process exits
with code 1 and `sequelize.close()` is never called, though the claim
says the persistence handle is closed before exit. -/
theorem bind_failure_leaks_db_connection :
    (startServer
        ⟨none, none, none,
          ListenOutcome.errorEvent
            ⟨"listen EADDRINUSE: address already in use :::3000", "stack1", "EADDRINUSE"⟩⟩
        initialModuleState).acts
        = [StartAct.initLoggerCall, StartAct.initDBCall, StartAct.initMailCall,
           StartAct.listenCall, StartAct.signalHandlersInstalled, StartAct.exit 1]
      ∧ StartAct.dbCloseCall ∉
        (startServer
          ⟨none, none, none,
            ListenOutcome.errorEvent
              ⟨"listen EADDRINUSE: address already in use :::3000", "stack1", "EADDRINUSE"⟩⟩
          initialModuleState).acts :=
  ⟨rfl, by decide⟩

/-- C4 amended: if persistence initialization succeeds but the listener
bind subsequently fails, the process exits with code 1 WITHOUT closing
the persistence handle — the connection is leaked on startup failure. -/
theorem bind_failure_no_db_close (e : JsError) :
    (startServer ⟨none, none, none, ListenOutcome.errorEvent e⟩ initialModuleState).acts
        = [StartAct.initLoggerCall, StartAct.initDBCall, StartAct.initMailCall,
           StartAct.listenCall, StartAct.signalHandlersInstalled, StartAct.exit 1]
      ∧ StartAct.dbCloseCall ∉
        (startServer ⟨none, none, none, ListenOutcome.errorEvent e⟩ initialModuleState).acts := by
  refine ⟨rfl, ?_⟩
  intro h
  rw [show (startServer ⟨none, none, none, ListenOutcome.errorEvent e⟩ initialModuleState).acts
      = [StartAct.initLoggerCall, StartAct.initDBCall, StartAct.initMailCall,
         StartAct.listenCall, StartAct.signalHandlersInstalled, StartAct.exit 1] from rfl] at h
  exact absurd h (by decide)

/-- C5: the comment on `serverInstance` documents a duplicate-start
guard, but `startServer` never reads it — a second invocation on the
post-start module state is not rejected: it re-runs the whole
initialization sequence and calls `app.listen` again. -/
theorem double_start_reruns_listen :
    (startServer ⟨none, none, none, ListenOutcome.ready⟩ initialModuleState).state.serverInstance
        = some ()
      ∧ (startServer ⟨none, none, none, ListenOutcome.ready⟩
            (startServer ⟨none, none, none, ListenOutcome.ready⟩ initialModuleState).state).acts
        = (startServer ⟨none, none, none, ListenOutcome.ready⟩ initialModuleState).acts
      ∧ StartAct.listenCall ∈
          (startServer ⟨none, none, none, ListenOutcome.ready⟩
            (startServer ⟨none, none, none, ListenOutcome.ready⟩ initialModuleState).state).acts :=
  ⟨rfl, rfl, by decide⟩

/-- C6 counterexample: a fully successful shutdown run in the actual
process (module logger null) exits with code 0 but emits NOTHING — the
claim says it logs completion (and logs errors with their trace on the
failure paths), yet every log call of the shutdown sequence is an
optional-chained call on the never-assigned module logger. -/
theorem clean_shutdown_emits_no_log :
    gracefulShutdown procEnv "SIGINT"
      = ⟨[], [GsAct.serverCloseCall, GsAct.dbCloseCall, GsAct.exit 0]⟩ := rfl

/-- C6 amended: every shutdown run terminates the process — exit code 0
when both release steps settle cleanly and exit code 1 when any step
rejects — but in the actual process (module logger null) the
completion/error messages pass through optional-chained calls on the
null logger, so nothing is emitted. -/
theorem shutdown_exit_codes (si : Option ServerHandle) (sq : Option DbHandle) (sig : String) :
    (gracefulShutdown ⟨none, si, sq⟩ sig).acts.getLast? =
        some (GsAct.exit (if srvOk ⟨none, si, sq⟩ && dbOk ⟨none, si, sq⟩ then 0 else 1))
      ∧ (gracefulShutdown ⟨none, si, sq⟩ sig).logs = [] := by
  rcases si with _ | ⟨_ | e1⟩ <;> rcases sq with _ | ⟨_ | e2⟩ <;> exact ⟨rfl, rfl⟩

/-- C7: when the listener reports an asynchronous `EADDRINUSE` bind
error after the call returned, the error handler logs the specific
port-in-use diagnostic (through the initialized local logger) and the
process exits with code 1; the `listening` callback — the transition to
Running — never fires. -/
theorem eaddrinuse_diagnostic_and_exit (m st : String) :
    (startServer
        ⟨none, none, none, ListenOutcome.errorEvent ⟨m, st, "EADDRINUSE"⟩⟩
        initialModuleState).acts
        = [StartAct.initLoggerCall, StartAct.initDBCall, StartAct.initMailCall,
           StartAct.listenCall, StartAct.signalHandlersInstalled, StartAct.exit 1]
      ∧ ("端口 " ++ toString PORT ++ " 已被占用，请更换端口后重试") ∈
        (startServer
          ⟨none, none, none, ListenOutcome.errorEvent ⟨m, st, "EADDRINUSE"⟩⟩
          initialModuleState).loggerLogs
      ∧ StartAct.listeningCallback ∉
        (startServer
          ⟨none, none, none, ListenOutcome.errorEvent ⟨m, st, "EADDRINUSE"⟩⟩
          initialModuleState).acts := by
  refine ⟨rfl, ?_, ?_⟩
  · simp [startServer]
  · intro h
    rw [show (startServer
          ⟨none, none, none, ListenOutcome.errorEvent ⟨m, st, "EADDRINUSE"⟩⟩
          initialModuleState).acts
        = [StartAct.initLoggerCall, StartAct.initDBCall, StartAct.initMailCall,
           StartAct.listenCall, StartAct.signalHandlersInstalled, StartAct.exit 1] from rfl] at h
    exact absurd h (by decide)

/-- C8 counterexample: `gracefulShutdown` invoked with neither handle
present (the NotStarted situation) is not a no-op — it skips both
release steps but still calls `process.exit(0)`, terminating the
process, where the claim says it returns without side effects. -/
theorem shutdown_before_start_exits :
    gracefulShutdown ⟨none, none, none⟩ "SIGINT" = ⟨[], [GsAct.exit 0]⟩ := rfl

/-- C8 amended: shutdown invoked in the NotStarted situation skips both
release steps (no listener close, no persistence close; the module
logger is null so nothing is emitted) but still terminates the process
with exit code 0 — it is not a side-effect-free no-op.  (A Stopped
caller state is unobservable: completing shutdown exits the process.) -/
theorem shutdown_before_start_behavior (sig : String) :
    gracefulShutdown ⟨none, none, none⟩ sig = ⟨[], [GsAct.exit 0]⟩ := rfl

/-- C9: whenever a listener handle exists, the shutdown run's very first
release action is the listener close (issued once), so the persistence
close — awaited afterwards within the same sequential run — can only
occur strictly later: resources are released in reverse-acquisition
order. -/
theorem reverse_acquisition_order (lg : Option Unit) (hnd : ServerHandle)
    (sq : Option DbHandle) (sig : String) :
    ∃ rest, (gracefulShutdown ⟨lg, some hnd, sq⟩ sig).acts = GsAct.serverCloseCall :: rest
      ∧ GsAct.serverCloseCall ∉ rest := by
  obtain ⟨ce⟩ := hnd
  rcases ce with _ | e
  · rcases sq with _ | ⟨ce2⟩
    · exact ⟨[GsAct.exit 0], rfl, by decide⟩
    · rcases ce2 with _ | e2
      · exact ⟨[GsAct.dbCloseCall, GsAct.exit 0], rfl, by decide⟩
      · exact ⟨[GsAct.dbCloseCall, GsAct.exit 1], rfl, by decide⟩
  · exact ⟨[GsAct.exit 1], rfl, by decide⟩

/-- C10 counterexample: the `uncaughtException` interceptor closes over
the shadowing LOCAL `const logger` (initialized), not the module
variable, so its optional-chained log call emits — the claim says every
optional-chained log call in the fault interceptors is a no-op. -/
theorem fault_interceptor_logs_emit :
    (uncaughtExceptionHandler (some ()) procEnv ⟨"boom", "trace0", ""⟩).logs
      = ["[未捕获异常] boom"] := by decide

/-- C10 amended: the module-level `logger` variable is never assigned
(`startServer` binds the initialized logger to a shadowing local), so it
stays null for the process lifetime: every optional-chained log call in
the shutdown sequence is a no-op, and a startup failure caught after
logger initialization is reported through the console fallback rather
than the structured sink.  The fault interceptors, however, close over
the initialized local constant and their log calls do emit. -/
theorem module_logger_never_assigned :
    (∀ env s, (startServer env s).state.logger = s.logger)
      ∧ (∀ srv sq sig, (gracefulShutdown ⟨none, srv, sq⟩ sig).logs = [])
      ∧ (∀ e lo,
          (startServer ⟨none, some e, none, lo⟩ initialModuleState).consoleLogs
              = [startFailMsg e]
            ∧ (startServer ⟨none, some e, none, lo⟩ initialModuleState).loggerLogs
              = ["[服务启动] 初始化数据库连接..."])
      ∧ (∀ env e,
          (uncaughtExceptionHandler (some ()) env e).logs.head?
            = some ("[未捕获异常] " ++ e.message)) := by
  refine ⟨?_, ?_, fun e lo => ⟨rfl, rfl⟩, fun env e => rfl⟩
  · intro env s
    obtain ⟨a, b, c, lo⟩ := env
    obtain ⟨ssi, slg⟩ := s
    rcases a with _ | e1 <;> rcases b with _ | e2 <;> rcases c with _ | e3 <;>
      rcases lo with _ | e4 <;> rcases slg with _ | ⟨⟩ <;> rfl
  · intro srv sq sig
    rcases srv with _ | ⟨_ | e1⟩ <;> rcases sq with _ | ⟨_ | e2⟩ <;> rfl
